import Mathlib

/-!
Verification of the TGBot-PythonDOCS sandbox against its specification.

The repository contains two implementations of the restricted runtime:
the in-process worker in bot.py (function underscore-run-code-in-sandbox,
launched via multiprocessing and a pipe) and the standalone subprocess
worker sandbox_runner.py (launched as a separate python process that
prints one JSON line).  The definitions below are shallow embeddings of
the pure decision logic of both: the import gates, the save-path
confinement wrappers, the output file collection, the result protocol,
the timeout escalation in safe_exec, the deferred cleanup, and the
SafeSys attribute wrapper.  String operations are modelled on the
underlying character lists so that every definition evaluates by kernel
reduction.
-/

/-- The allow-list ALLOWED_MODULES of bot.py (lines 50-54). -/
def ALLOWED_MODULES : List String :=
  ["random", "datetime", "re", "json", "math", "textwrap", "base64", "io",
   "os.path", "docx", "pptx", "reportlab", "PIL", "requests"]

/-- The deny-list FORBIDDEN_MODULES of sandbox_runner.py (lines 18-22). -/
def FORBIDDEN_MODULES : List String :=
  ["subprocess", "socket", "threading", "multiprocessing",
   "inspect", "pickle", "shutil", "ctypes", "code", "compile",
   "exec", "eval", "__import__", "runpy", "importlib.util"]

/-- Python name.split(".")[0]: the characters of the name before the first dot. -/
def topLevel (name : String) : String :=
  String.mk (name.data.takeWhile (fun c => c ≠ '.'))

/-- Possible results of one call to a safe-import gate.  `fakeOs` is the
synthesized types.SimpleNamespace carrying only the path attribute,
`safeSys` is the SafeSys wrapper of sandbox_runner.py, `denied` is a raised
ImportError, and `delegated` means the call falls through to the original
builtin import machinery (the script obtains the real module). -/
inductive ImportResult
  | fakeOs
  | safeSys
  | denied (name : String)
  | delegated (name : String)
deriving DecidableEq, Repr

/-- The attributes set on the synthesized os namespace: fake_os.path only. -/
def fakeOsAttrs : List String := ["path"]

/-- safe_import of bot.py (lines 102-112): the exact name os is special-cased
to the synthesized namespace, then the top-level component is checked against
the allow-list, and allowed names are delegated to the original import. -/
def bot_safe_import (name : String) : ImportResult :=
  if name = "os" then ImportResult.fakeOs
  else if topLevel name ∈ ALLOWED_MODULES then ImportResult.delegated name
  else ImportResult.denied name

/-- safe_import of sandbox_runner.py (lines 39-51): the top-level component is
checked against the deny-list, the exact names sys and os are special-cased,
and every other name is delegated to the original import. -/
def sandbox_safe_import (name : String) : ImportResult :=
  if topLevel name ∈ FORBIDDEN_MODULES then ImportResult.denied name
  else if name = "sys" then ImportResult.safeSys
  else if name = "os" then ImportResult.fakeOs
  else ImportResult.delegated name

/-- posix os.path.basename: the characters after the last slash. -/
def basename (p : String) : String :=
  String.mk ((p.data.reverse.takeWhile (fun c => c ≠ '/')).reverse)

/-- Python str.lower, character by character. -/
def lowerStr (s : String) : String :=
  String.mk (s.data.map Char.toLower)

/-- Python str.endswith for a single suffix. -/
def strEndsWith (s suf : String) : Bool :=
  List.isSuffixOf suf.data s.data

/-- Python len on a string (number of code points). -/
def strLen (s : String) : Nat := s.data.length

/-- Python s[:n]. -/
def takeStr (s : String) (n : Nat) : String := String.mk (s.data.take n)

/-- The check fn.lower().endswith(exts) used by every patched save method. -/
def extAllowed (exts : List String) (fn : String) : Bool :=
  exts.any (fun e => strEndsWith (lowerStr fn) e)

/-- Extensions accepted by the patched Document.save (bot.py line 135 and
sandbox_runner.py line 106). -/
def DOC_EXTS : List String := [".docx", ".pdf", ".pptx", ".png", ".jpg", ".jpeg"]

/-- Extensions accepted by the patched Presentation.save (bot.py line 150 and
sandbox_runner.py line 117). -/
def PPTX_EXTS : List String := [".pptx", ".pdf"]

/-- Extensions accepted by the patched canvas.Canvas init (bot.py line 167 and
sandbox_runner.py line 128). -/
def CANVAS_EXTS : List String := [".pdf"]

/-- The body shared by every patched save wrapper: take the basename of the
requested filename, raise ValueError when the lowercased basename does not end
in a permitted extension, otherwise delegate to the original save with the
basename joined to the private job directory. -/
def confineSave (exts : List String) (tempDir fn : String) : Except String String :=
  if extAllowed exts (basename fn) then Except.ok (tempDir ++ "/" ++ basename fn)
  else Except.error "extension not allowed"

/-- A directory entry as seen by Path.iterdir: a name plus whether it is a
regular file. -/
structure DirEntry where
  name : String
  isFile : Bool
deriving DecidableEq, Repr

/-- The suffix filter of bot.py line 196. -/
def OUTPUT_EXTS : List String := [".docx", ".pptx", ".pdf", ".png", ".jpg", ".jpeg"]

/-- pathlib PurePath.suffix: the final dot-led component of the name, empty
when the name has no dot, starts with its only dot, or ends with the dot. -/
def pathSuffix (name : String) : String :=
  let rev := name.data.reverse
  let after := rev.takeWhile (fun c => c ≠ '.')
  match rev.dropWhile (fun c => c ≠ '.') with
  | [] => ""
  | _ :: pre =>
      if after.isEmpty || pre.isEmpty then "" else String.mk ('.' :: after.reverse)

/-- File collection of bot.py lines 194-197: regular files in the job
directory whose lowercased suffix is in the permitted output set. -/
def bot_collect (dir : String) (entries : List DirEntry) : List String :=
  (entries.filter
      (fun e => e.isFile && OUTPUT_EXTS.contains (lowerStr (pathSuffix e.name)))).map
    (fun e => dir ++ "/" ++ e.name)

/-- File collection of sandbox_runner.py line 166: every regular file in the
job directory, with no extension filter. -/
def sandbox_collect (dir : String) (entries : List DirEntry) : List String :=
  (entries.filter (fun e => e.isFile)).map (fun e => dir ++ "/" ++ e.name)

/-- A Python value that is either a list of strings or a single string; the
second component of a worker result has both shapes in bot.py. -/
inductive PyData
  | ofList (l : List String)
  | ofStr (s : String)
deriving DecidableEq, Repr

/-- Python truthiness of a list or string. -/
def pyTruthy : PyData → Bool
  | PyData.ofList l => !l.isEmpty
  | PyData.ofStr s => !s.data.isEmpty

/-- Python data[0]: head of a list, or the first character of a string. -/
def pyIndex0 : PyData → String
  | PyData.ofList l => l.headD ""
  | PyData.ofStr s => String.mk (s.data.take 1)

/-- The diagnostic sent by the in-process worker on a script exception
(bot.py line 203): exception type name, the full untruncated message, and a
traceback excerpt limited to three frames. -/
def bot_error_diag (kind msg trace : String) : String :=
  kind ++ ": " ++ msg ++ "\n\n" ++ trace

/-- The message truncation of sandbox_runner.py lines 172-173. -/
def truncate200 (msg : String) : String :=
  if strLen msg > 200 then takeStr msg 200 ++ "..." else msg

/-- The diagnostic printed by the subprocess worker on a script exception
(sandbox_runner.py lines 170-175): exception type name plus the message
truncated at 200 characters; no traceback. -/
def sandbox_error_message (kind msg : String) : String :=
  kind ++ ": " ++ truncate200 msg

/-- The result the in-process worker sends over the pipe, as a function of
whether exec finished and of the directory contents. -/
def bot_worker (execOk : Bool) (kind msg trace dir : String)
    (entries : List DirEntry) : String × PyData :=
  if execOk then ("success", PyData.ofList (bot_collect dir entries))
  else ("error", PyData.ofStr (bot_error_diag kind msg trace))

/-- The result the subprocess worker prints, as a function of whether exec
finished and of the directory contents. -/
def sandbox_worker (execOk : Bool) (kind msg dir : String)
    (entries : List DirEntry) : String × PyData :=
  if execOk then ("success", PyData.ofList (sandbox_collect dir entries))
  else ("error", PyData.ofStr (sandbox_error_message kind msg))

/-- How the execution of the user script can end, seen from the try block of
the worker: normal completion; an Exception whose str method may itself
raise while the handler formats the diagnostic; an exception that is not an
Exception subclass (SystemExit, KeyboardInterrupt) which the except clause
does not catch; or a hard kill of the process by the host. -/
inductive ExecOutcome
  | ok
  | exn (strRaises : Bool)
  | nonExceptionExit
  | killed
deriving DecidableEq, Repr

/-- Number of result lines sandbox_runner.py prints for one job: the success
branch prints one, the except-Exception branch prints one unless evaluating
str on the exception raises, and every other termination prints none. -/
def sandbox_results_emitted : ExecOutcome → Nat
  | ExecOutcome.ok => 1
  | ExecOutcome.exn strRaises => if strRaises then 0 else 1
  | ExecOutcome.nonExceptionExit => 0
  | ExecOutcome.killed => 0

/-- Number of pipe messages the in-process worker of bot.py sends for one
job; the structure is the same as in the subprocess worker. -/
def bot_results_sent : ExecOutcome → Nat
  | ExecOutcome.ok => 1
  | ExecOutcome.exn strRaises => if strRaises then 0 else 1
  | ExecOutcome.nonExceptionExit => 0
  | ExecOutcome.killed => 0

/-- Process-control actions safe_exec performs on the worker after the
deadline expires. -/
inductive ProcAction
  | terminate
  | join (secs : Nat)
  | kill
deriving DecidableEq, Repr

/-- The wall-clock deadline passed to parent_conn.poll in bot.py line 227. -/
def POLL_SECONDS : Nat := 30

/-- The message returned by safe_exec when the deadline expires. -/
def TIMEOUT_MESSAGE : String := "⚠️ Превышено время выполнения (30 сек)"

/-- safe_exec of bot.py lines 225-235: when poll yields a worker result it is
returned unchanged with no process actions; when poll times out the worker is
terminated, joined for two seconds, killed when still alive, and the outcome
tagged error with the timeout message is returned. -/
def safe_exec_model (poll30 : Option (String × PyData)) (aliveAfterJoin : Bool) :
    (String × PyData) × List ProcAction :=
  match poll30 with
  | some r => (r, [])
  | none =>
      (("error", PyData.ofList [TIMEOUT_MESSAGE]),
       [ProcAction.terminate, ProcAction.join 2] ++
         (if aliveAfterJoin then [ProcAction.kill] else []))

/-- Retention delay, in seconds, of delete_files_after_delay (bot.py 246). -/
def RETENTION_SECONDS : Nat := 900

/-- The scheduling decision of handle_code (bot.py lines 654-665): the
deferred deletion task is created only in the success branch and only when
the reported file list is non-empty; the error branch schedules nothing. -/
def schedule_cleanup (tag : String) (files : List String) :
    Option (Nat × List String) :=
  if tag = "success" then
    (if files.isEmpty then none else some (RETENTION_SECONDS, files))
  else none

/-- The deferred deletion step of bot.py lines 246-253 acting on a file
system modelled as the list of existing paths: each listed path is unlinked
with missing_ok, every failure swallowed, so the step is a total function
that removes exactly the listed paths. -/
def delete_files_after_delay (paths fs : List String) : List String :=
  fs.filter (fun q => !(decide (q ∈ paths)))

/-- Attribute names blocked by SafeSys.__getattr__ (sandbox_runner.py 35). -/
def BLOCKED_SYS_ATTRS : List String :=
  ["exit", "_getframe", "stdin", "stdout", "stderr", "settrace", "setprofile"]

/-- Attribute names set on the SafeSys instance at construction
(sandbox_runner.py lines 27-32): the stored reference to the real sys module
itself and five snapshots; instance attributes are found by normal lookup, so
getattr never reaches the blocking code for them. -/
def SAFE_SYS_INSTANCE_ATTRS : List String :=
  ["_real_sys", "argv", "path", "modules", "version", "platform"]

/-- Result of one attribute access on the SafeSys wrapper. -/
inductive AttrResult
  | raises
  | snapshot
  | forwarded
deriving DecidableEq, Repr

/-- Attribute lookup on a SafeSys instance: instance attributes first, then
the blocked names raise RuntimeError inside getattr, everything else is
forwarded to the real sys module. -/
def safeSysGetattr (name : String) : AttrResult :=
  if name ∈ SAFE_SYS_INSTANCE_ATTRS then AttrResult.snapshot
  else if name ∈ BLOCKED_SYS_ATTRS then AttrResult.raises
  else AttrResult.forwarded

/-- The argv snapshot stored on the SafeSys instance: a one-element list
holding only the runner file (sandbox_runner.py line 28). -/
def safeSysArgv (file : String) : List String := [file]

/-- The real sys.argv of the subprocess worker, which is launched as
python sandbox_runner.py temp_dir code_file. -/
def realSysArgv (file tempDir codeFile : String) : List String :=
  [file, tempDir, codeFile]

/-- Python expression data[0] if data else default, as evaluated by
handle_code on the second component of a failed result (bot.py line 667). -/
def result_data_head (d : PyData) : String :=
  if pyTruthy d then pyIndex0 d else "Неизвестная ошибка"

/-- The display truncation of handle_code (bot.py lines 669-670). -/
def truncate3000 (m : String) : String :=
  if strLen m > 3000 then takeStr m 2997 ++ "..." else m

/-- The error text handle_code shows the caller for a non-success result. -/
def handle_error_display (d : PyData) : String :=
  truncate3000 (result_data_head d)

deriving instance DecidableEq for Except

/-! The theorems.  Helper lemmas come first, then one theorem per claim with
its counterexample and witness where required. -/

/-- The length of a string concatenation is the sum of the lengths. -/
theorem strLen_append (s t : String) : strLen (s ++ t) = strLen s + strLen t := by
  simp [strLen]

/-- The basename of any requested filename contains no path separator. -/
theorem basename_no_slash (p : String) : '/' ∉ (basename p).data := by
  intro h
  have h2 : '/' ∈ p.data.reverse.takeWhile (fun c => c ≠ '/') := by
    simpa [basename] using List.mem_reverse.mp h
  have h3 := List.mem_takeWhile_imp h2
  simp at h3

/-- Every diagnostic the in-process worker sends grows linearly with the raw
exception message: no truncation happens at the worker boundary. -/
theorem bot_error_diag_len (kind msg trace : String) :
    strLen (bot_error_diag kind msg trace)
      = strLen kind + strLen msg + strLen trace + 4 := by
  have h1 : strLen ": " = 2 := by decide
  have h2 : strLen "\n\n" = 2 := by decide
  simp [bot_error_diag, strLen_append, h1, h2]
  omega

/-- Claim C1 counterexample: the subprocess worker gate is a deny-list, so the
name socketserver, whose top-level component is in no allow-list, is delegated
to the real import instead of being rejected; and in the in-process worker the
name os, whose top-level component os is not in ALLOWED_MODULES, is answered
with the synthesized namespace instead of an ImportError. -/
theorem c1_counterexample :
    sandbox_safe_import "socketserver" = ImportResult.delegated "socketserver" ∧
    topLevel "socketserver" ∉ ALLOWED_MODULES ∧
    topLevel "socketserver" ∉ FORBIDDEN_MODULES ∧
    bot_safe_import "os" = ImportResult.fakeOs ∧
    topLevel "os" ∉ ALLOWED_MODULES := by decide

/-- Claim C1 amended: the in-process worker gate rejects every name, other
than the special-cased exact name os, whose top-level component is not in
ALLOWED_MODULES; the subprocess worker gate instead rejects exactly the names
whose top-level component is in FORBIDDEN_MODULES and delegates every other
name except the special-cased sys and os to the real import. -/
theorem c1_import_gate :
    (∀ name : String, name ≠ "os" → topLevel name ∉ ALLOWED_MODULES →
        bot_safe_import name = ImportResult.denied name) ∧
    (∀ name : String, topLevel name ∈ FORBIDDEN_MODULES →
        sandbox_safe_import name = ImportResult.denied name) ∧
    (∀ name : String, topLevel name ∉ FORBIDDEN_MODULES → name ≠ "sys" →
        name ≠ "os" → sandbox_safe_import name = ImportResult.delegated name) := by
  refine ⟨?_, ?_, ?_⟩
  · intro name h1 h2
    simp [bot_safe_import, h1, h2]
  · intro name h
    simp [sandbox_safe_import, h]
  · intro name h1 h2 h3
    simp [sandbox_safe_import, h1, h2, h3]

/-- Claim C1 witness: the gate decisions at the concrete names socket and
socketserver. -/
theorem c1_import_gate_witness :
    bot_safe_import "socket" = ImportResult.denied "socket" ∧
    sandbox_safe_import "socket" = ImportResult.denied "socket" ∧
    sandbox_safe_import "socketserver" = ImportResult.delegated "socketserver" :=
  ⟨c1_import_gate.1 "socket" (by decide) (by decide),
   c1_import_gate.2.1 "socket" (by decide),
   c1_import_gate.2.2 "socketserver" (by decide) (by decide) (by decide)⟩

/-- Claim C2: every wrapped save operation strips the directory components of
the requested filename, delegates with the base name joined to the private
job directory exactly when the lowercased base name ends in a permitted
extension, and raises otherwise; the delegated path is the job directory plus
a single separator-free segment. -/
theorem c2_output_confinement :
    ∀ (exts : List String) (d fn out : String),
      (confineSave exts d fn = Except.ok out →
        out = d ++ "/" ++ basename fn ∧ extAllowed exts (basename fn) = true ∧
          '/' ∉ (basename fn).data) ∧
      (extAllowed exts (basename fn) = false →
        confineSave exts d fn = Except.error "extension not allowed") := by
  intro exts d fn out
  constructor
  · intro h
    by_cases hx : extAllowed exts (basename fn) = true
    · refine ⟨?_, hx, basename_no_slash fn⟩
      simp [confineSave, hx] at h
      exact h.symm
    · simp [confineSave, hx] at h
  · intro hx
    simp [confineSave, hx]

/-- Claim C2 witness: a traversal filename is confined to its base name
inside the job directory. -/
theorem c2_output_confinement_witness :
    "temp_files/1_ab/evil.pdf" = "temp_files/1_ab" ++ "/" ++ basename "../../etc/evil.pdf" ∧
    extAllowed DOC_EXTS (basename "../../etc/evil.pdf") = true ∧
    '/' ∉ (basename "../../etc/evil.pdf").data :=
  (c2_output_confinement DOC_EXTS "temp_files/1_ab" "../../etc/evil.pdf"
      "temp_files/1_ab/evil.pdf").1 (by decide)

/-- Claim C3 counterexample: on a success outcome the subprocess worker
reports every file in the job directory, so a file named evil.txt, whose
suffix is outside the permitted output set, appears in the reported list. -/
theorem c3_counterexample :
    sandbox_worker true "k" "m" "/tmp/job" [⟨"evil.txt", true⟩]
      = ("success", PyData.ofList ["/tmp/job/evil.txt"]) ∧
    OUTPUT_EXTS.contains (lowerStr (pathSuffix "evil.txt")) = false := by decide

/-- Claim C3 amended: on success the in-process worker lists only regular
files of the job directory whose lowercased suffix is in the permitted set,
each under the job directory; the subprocess worker lists every regular file
of the job directory regardless of extension; and on a failed execution the
result of either worker is independent of the directory contents, so no file
path is surfaced. -/
theorem c3_success_paths :
    (∀ (dir : String) (entries : List DirEntry) (p : String),
        p ∈ bot_collect dir entries →
        ∃ e, e ∈ entries ∧ e.isFile = true ∧
          OUTPUT_EXTS.contains (lowerStr (pathSuffix e.name)) = true ∧
          p = dir ++ "/" ++ e.name) ∧
    (∀ (dir : String) (entries : List DirEntry) (p : String),
        p ∈ sandbox_collect dir entries →
        ∃ e, e ∈ entries ∧ e.isFile = true ∧ p = dir ++ "/" ++ e.name) ∧
    (∀ (k m t dir : String) (es es2 : List DirEntry),
        bot_worker false k m t dir es = bot_worker false k m t dir es2) ∧
    (∀ (k m dir : String) (es es2 : List DirEntry),
        sandbox_worker false k m dir es = sandbox_worker false k m dir es2) := by
  refine ⟨?_, ?_, ?_, ?_⟩
  · intro dir entries p hp
    rcases List.mem_map.mp hp with ⟨e, he, rfl⟩
    rcases List.mem_filter.mp he with ⟨hmem, hq⟩
    rw [Bool.and_eq_true] at hq
    exact ⟨e, hmem, hq.1, hq.2, rfl⟩
  · intro dir entries p hp
    rcases List.mem_map.mp hp with ⟨e, he, rfl⟩
    rcases List.mem_filter.mp he with ⟨hmem, hq⟩
    exact ⟨e, hmem, hq, rfl⟩
  · intro k m t dir es es2
    rfl
  · intro k m dir es es2
    rfl

/-- Claim C3 witness: the reported path of a pdf file produced by the
in-process worker decomposes as claimed. -/
theorem c3_success_paths_witness :
    ∃ e, e ∈ [DirEntry.mk "a.pdf" true] ∧ e.isFile = true ∧
      OUTPUT_EXTS.contains (lowerStr (pathSuffix e.name)) = true ∧
      "temp_files/1_ab/a.pdf" = "temp_files/1_ab" ++ "/" ++ e.name :=
  c3_success_paths.1 "temp_files/1_ab" [DirEntry.mk "a.pdf" true]
    "temp_files/1_ab/a.pdf" (by decide)

/-- Claim C4: both workers emit a result only from the success branch or the
except-Exception branch; when formatting the diagnostic itself raises, when
the exception is not an Exception subclass, or when the process is killed,
zero results are emitted, so a script can end with no result reported. -/
theorem c4_missing_result_eval :
    sandbox_results_emitted (ExecOutcome.exn true) = 0 ∧
    bot_results_sent (ExecOutcome.exn true) = 0 ∧
    sandbox_results_emitted ExecOutcome.nonExceptionExit = 0 ∧
    sandbox_results_emitted ExecOutcome.killed = 0 ∧
    sandbox_results_emitted ExecOutcome.ok = 1 ∧
    sandbox_results_emitted (ExecOutcome.exn false) = 1 := by decide

/-- Claim C5 counterexample: when the deadline expires, safe_exec returns the
outcome tag error, not a distinct timeout tag. -/
theorem c5_counterexample :
    (safe_exec_model none true).1.1 = "error" ∧
    (safe_exec_model none true).1.1 ≠ "timeout" := by decide

/-- Claim C5 amended: the deadline is 30 seconds; on expiry safe_exec
terminates the worker, joins it for 2 seconds, kills it when still alive,
and returns the outcome tagged error carrying the timeout message; a result
that arrives in time is returned unchanged with no process actions. -/
theorem c5_timeout_escalation :
    POLL_SECONDS = 30 ∧
    safe_exec_model none false =
      (("error", PyData.ofList [TIMEOUT_MESSAGE]),
        [ProcAction.terminate, ProcAction.join 2]) ∧
    safe_exec_model none true =
      (("error", PyData.ofList [TIMEOUT_MESSAGE]),
        [ProcAction.terminate, ProcAction.join 2, ProcAction.kill]) ∧
    (∀ r : String × PyData, ∀ alive : Bool, safe_exec_model (some r) alive = (r, [])) :=
  ⟨rfl, rfl, rfl, fun _ _ => rfl⟩

/-- Claim C6 counterexample: the dotted name os.path is rejected by the
in-process worker and delegated to the real import machinery, which returns
the real filesystem module, by the subprocess worker. -/
theorem c6_counterexample :
    sandbox_safe_import "os.path" = ImportResult.delegated "os.path" ∧
    bot_safe_import "os.path" = ImportResult.denied "os.path" := by decide

/-- Claim C6 amended: an import of the exact name os returns the synthesized
namespace exposing only the path attribute in both workers, but the dotted
spelling os.path raises in the in-process worker and reaches the real import
machinery in the subprocess worker. -/
theorem c6_fake_os :
    bot_safe_import "os" = ImportResult.fakeOs ∧
    sandbox_safe_import "os" = ImportResult.fakeOs ∧
    fakeOsAttrs = ["path"] ∧
    bot_safe_import "os.path" = ImportResult.denied "os.path" ∧
    sandbox_safe_import "os.path" = ImportResult.delegated "os.path" := by decide

/-- Claim C7 counterexample: the patched document save accepts a png
filename, although png is not in the claimed document-writer set of docx and
pdf. -/
theorem c7_counterexample :
    confineSave DOC_EXTS "temp_files/1_ab" "a.png" = Except.ok "temp_files/1_ab/a.png" ∧
    ([".docx", ".pdf"].any (fun e => strEndsWith (lowerStr "a.png") e)) = false := by decide

/-- Claim C7 amended: the extension check of every wrapper is a
case-insensitive suffix match of the base name against the configured set,
with the document writer permitting docx, pdf, pptx, png, jpg and jpeg, the
slide writer pptx and pdf, and the canvas writer pdf; a non-matching name
raises and a matching one is delegated into the job directory. -/
theorem c7_extension_sets :
    DOC_EXTS = [".docx", ".pdf", ".pptx", ".png", ".jpg", ".jpeg"] ∧
    PPTX_EXTS = [".pptx", ".pdf"] ∧
    CANVAS_EXTS = [".pdf"] ∧
    (∀ (exts : List String) (fn : String),
        extAllowed exts fn = true ↔ ∃ e, e ∈ exts ∧ strEndsWith (lowerStr fn) e = true) ∧
    (∀ (exts : List String) (d fn : String), extAllowed exts (basename fn) = false →
        confineSave exts d fn = Except.error "extension not allowed") ∧
    (∀ (exts : List String) (d fn : String), extAllowed exts (basename fn) = true →
        confineSave exts d fn = Except.ok (d ++ "/" ++ basename fn)) := by
  refine ⟨rfl, rfl, rfl, ?_, ?_, ?_⟩
  · intro exts fn
    simp [extAllowed, List.any_eq_true]
  · intro exts d fn h
    simp [confineSave, h]
  · intro exts d fn h
    simp [confineSave, h]

/-- Claim C7 witness: an uppercase pdf filename passes the canvas check and a
pptx filename is rejected there. -/
theorem c7_extension_sets_witness :
    confineSave CANVAS_EXTS "temp_files/1_ab" "A.PDF"
      = Except.ok ("temp_files/1_ab" ++ "/" ++ basename "A.PDF") ∧
    confineSave CANVAS_EXTS "temp_files/1_ab" "a.pptx"
      = Except.error "extension not allowed" :=
  ⟨c7_extension_sets.2.2.2.2.2 CANVAS_EXTS "temp_files/1_ab" "A.PDF" (by decide),
   c7_extension_sets.2.2.2.2.1 CANVAS_EXTS "temp_files/1_ab" "a.pptx" (by decide)⟩

/-- Claim C8 counterexample: an error outcome schedules no deletion at all,
and a success outcome whose job directory holds only a txt file reports an
empty list and likewise schedules no deletion, so files in the private
directory can be scheduled for deletion on neither outcome. -/
theorem c8_counterexample :
    schedule_cleanup "error" [] = none ∧
    bot_collect "temp_files/7_cd" [⟨"partial.txt", true⟩] = [] ∧
    schedule_cleanup "success" (bot_collect "temp_files/7_cd" [⟨"partial.txt", true⟩])
      = none := by decide

/-- Claim C8 amended: deletion after the fixed 900 second retention delay is
scheduled only for a success outcome with a non-empty reported file list and
covers exactly the reported files; on any other outcome nothing is scheduled;
the deferred deletion step is total, idempotent, and leaves files outside the
given list untouched. -/
theorem c8_cleanup :
    RETENTION_SECONDS = 900 ∧
    (∀ files : List String, files ≠ [] →
        schedule_cleanup "success" files = some (RETENTION_SECONDS, files)) ∧
    schedule_cleanup "success" [] = none ∧
    (∀ (tag : String) (files : List String), tag ≠ "success" →
        schedule_cleanup tag files = none) ∧
    (∀ paths fs : List String,
        delete_files_after_delay paths (delete_files_after_delay paths fs)
          = delete_files_after_delay paths fs) ∧
    (∀ (paths fs : List String) (q : String), q ∉ paths →
        (q ∈ delete_files_after_delay paths fs ↔ q ∈ fs)) := by
  refine ⟨rfl, ?_, rfl, ?_, ?_, ?_⟩
  · intro files h
    cases files with
    | nil => exact absurd rfl h
    | cons a as => rfl
  · intro tag files h
    simp [schedule_cleanup, h]
  · intro paths fs
    simp [delete_files_after_delay, List.filter_filter]
  · intro paths fs q h
    simp [delete_files_after_delay, List.mem_filter, h]

/-- Claim C8 witness: the scheduling and frame facts at concrete inputs. -/
theorem c8_cleanup_witness :
    schedule_cleanup "success" ["temp_files/1_ab/a.pdf"]
      = some (RETENTION_SECONDS, ["temp_files/1_ab/a.pdf"]) ∧
    schedule_cleanup "error" ["x"] = none ∧
    (("other" : String) ∈ delete_files_after_delay ["gone"] ["other"] ↔
      ("other" : String) ∈ (["other"] : List String)) :=
  ⟨c8_cleanup.2.1 ["temp_files/1_ab/a.pdf"] (by decide),
   c8_cleanup.2.2.2.1 "error" ["x"] (by decide),
   c8_cleanup.2.2.2.2.2 ["gone"] ["other"] "other" (by decide)⟩

/-- Claim C9: the worker-side diagnostic of the in-process worker is
unbounded in the raw exception message, and for a script raising
ValueError with message boom the caller is shown only the single character
V, because handle_code indexes the string diagnostic at position zero. -/
theorem c9_error_display_eval :
    handle_error_display (PyData.ofStr (bot_error_diag "ValueError" "boom" "Traceback line"))
      = "V" ∧
    handle_error_display (PyData.ofList [TIMEOUT_MESSAGE]) = TIMEOUT_MESSAGE ∧
    (∀ msg : String,
        strLen (bot_error_diag "ValueError" msg "") = strLen msg + 14) := by
  refine ⟨by decide, by decide, ?_⟩
  intro msg
  have h := bot_error_diag_len "ValueError" msg ""
  have h1 : strLen "ValueError" = 10 := by decide
  have h2 : strLen "" = 0 := by decide
  rw [h, h1, h2]
  omega

/-- Claim C10 counterexample: argv is not among the blocked names, yet its
access on the wrapper is answered from the instance snapshot, a one-element
list that differs from the argv of the real module in the worker process. -/
theorem c10_counterexample :
    safeSysGetattr "argv" = AttrResult.snapshot ∧
    "argv" ∉ BLOCKED_SYS_ATTRS ∧
    safeSysArgv "sandbox_runner.py"
      ≠ realSysArgv "sandbox_runner.py" "temp_dir" "code.py" := by decide

/-- Claim C10 amended: the seven blocked names raise a runtime error, the six
instance attributes set at construction are served by ordinary instance
lookup before getattr can run: the stored reference to the real module under
the name with a leading underscore, and five values captured at construction,
with argv replaced by a one-element list; every attribute outside these
thirteen names is forwarded to the real module. -/
theorem c10_safe_sys :
    (∀ a : String, a ∈ BLOCKED_SYS_ATTRS → safeSysGetattr a = AttrResult.raises) ∧
    (∀ a : String, a ∈ SAFE_SYS_INSTANCE_ATTRS → safeSysGetattr a = AttrResult.snapshot) ∧
    safeSysGetattr "_real_sys" = AttrResult.snapshot ∧
    (∀ a : String, a ∉ BLOCKED_SYS_ATTRS → a ∉ SAFE_SYS_INSTANCE_ATTRS →
        safeSysGetattr a = AttrResult.forwarded) ∧
    (∀ f : String, safeSysArgv f = [f]) := by
  refine ⟨?_, ?_, by decide, ?_, fun f => rfl⟩
  · intro a h
    simp only [BLOCKED_SYS_ATTRS, List.mem_cons, List.not_mem_nil, or_false] at h
    rcases h with rfl | rfl | rfl | rfl | rfl | rfl | rfl <;> decide
  · intro a h
    simp only [SAFE_SYS_INSTANCE_ATTRS, List.mem_cons, List.not_mem_nil, or_false] at h
    rcases h with rfl | rfl | rfl | rfl | rfl | rfl <;> decide
  · intro a h1 h2
    simp [safeSysGetattr, h1, h2]

/-- Claim C10 witness: the wrapper decisions at the concrete attribute names
settrace, argv and maxsize. -/
theorem c10_safe_sys_witness :
    safeSysGetattr "settrace" = AttrResult.raises ∧
    safeSysGetattr "argv" = AttrResult.snapshot ∧
    safeSysGetattr "maxsize" = AttrResult.forwarded :=
  ⟨c10_safe_sys.1 "settrace" (by decide),
   c10_safe_sys.2.1 "argv" (by decide),
   c10_safe_sys.2.2.2.1 "maxsize" (by decide) (by decide)⟩
